import Mathlib

/-!
Verification of the azqr scan engine sources.

The development shallowly embeds the Go sources:
  * the scanner variants `CognitiveScanner.Scan` (cog/cog.go),
    `MySQLFlexibleScanner.Scan` (mysql/mysqlf.go) and
    `DataExplorerScanner.Scan` together with their resource listers;
  * the rule catalogs `SignalRScanner.GetRules` and `CosmosDBScanner.GetRules`
    with each rule's evaluation closure.

Conventions of the embedding:
  * Go `(T, error)` returns become pairs `T × Option GoError`; the Go code at
    hand returns either `(value, nil)` or `(nil, err)`, and a nil slice is
    modelled as `[]`.
  * A Go panic (nil-pointer dereference or failed type assertion
    `target.(*T)`) is modelled by the `Option` monad: `none` is an abort.
  * Go `map` literals and lookups are modelled by association lists and
    `List.lookup` on the key.
  * The `scanners` package itself (the types `ScannerConfig`, `ScanContext`,
    `AzureRule`, `AzureServiceResult` and the method
    `RuleEngine.EvaluateRules`) is not among the sources; its record shapes
    are reconstructed from their use sites, and `Scan` is parameterized by
    the composite evaluation function `fun resource ctx =>
    engine.EvaluateRules(rules, resource, ctx)` that the sources call.
-/

/-- Go `error` values; the embedding never inspects them, so a string stands
for the dynamic error value. -/
abbrev GoError := String

/-- Go `strings.ToLower` (ASCII-faithful; the identifiers involved are
ASCII).  Implemented over the character list so that it reduces in the
kernel. -/
def strings.ToLower (s : String) : String :=
  ⟨s.data.map Char.toLower⟩

/-- `leadMatch pat cs`: `pat` is a leading segment of `cs`. -/
def leadMatch : List Char → List Char → Bool
  | [], _ => true
  | _ :: _, [] => false
  | p :: ps, c :: cs => p == c && leadMatch ps cs

/-- `occursIn pat cs`: `pat` occurs contiguously in `cs`. -/
def occursIn : List Char → List Char → Bool
  | pat, [] => leadMatch pat []
  | pat, c :: cs => leadMatch pat (c :: cs) || occursIn pat cs

/-- Go `strings.Contains`: `sub` occurs as a substring of `s`. -/
def strings.Contains (s sub : String) : Bool :=
  occursIn sub.data s.data

/-- The scan context shared read-only with every scanner and rule.
The concrete Go struct is outside the given sources; modelled from the spec:
it "holds at minimum a mapping from lower-cased resource identifier →
has-diagnostics-configured boolean" plus subscription-level feature flags.
The sources only ever read `DiagnosticsSettings`. -/
structure ScanContext where
  DiagnosticsSettings : List (String × Bool)
  SubscriptionFeatures : List (String × Bool)
deriving Repr, DecidableEq

/-- The per-scanner configuration (fields used by the sources). -/
structure ScannerConfig where
  SubscriptionID : String
  SubscriptionName : String
deriving Repr, DecidableEq

/-- One outcome map produced by `RuleEngine.EvaluateRules`: rule id to
`(triggered, detail)`. -/
abbrev RuleResults := List (String × (Bool × String))

/-- The fields of a listed ARM resource that the three `Scan` functions read:
`*r.Name`, `*r.Type`, `*r.Location` (each a possibly-nil `*string` in Go).
The Go field `Type` is rendered `ResourceType` because `Type` is a Lean
keyword. -/
structure ArmResource where
  Name : Option String
  ResourceType : Option String
  Location : Option String
deriving Repr, DecidableEq

/-- `scanners.AzureServiceResult` as populated by the three `Scan`
functions (`Type` rendered `ResourceType`, see `ArmResource`). -/
structure AzureServiceResult where
  SubscriptionID : String
  SubscriptionName : String
  ResourceGroup : String
  ServiceName : String
  ResourceType : String
  Location : String
  Rules : RuleResults
deriving Repr, DecidableEq

/-- What one `pager.NextPage` call yields: `(resp.Value, err)`. -/
abbrev PageResult := List ArmResource × Option GoError

/-- The common pagination loop of `listEventHubs`, `listFlexiblePostgre` and
`listClusters`: accumulate `resp.Value` page by page; on the first page
error return `(nil, err)`, otherwise the concatenation and nil error.
`pages` is the sequence of results successive `NextPage` calls would
produce. -/
def pagerList : List PageResult → List ArmResource × Option GoError
  | [] => ([], none)
  | (_, some e) :: _ => ([], some e)
  | (items, none) :: rest =>
    match pagerList rest with
    | (_, some e) => ([], some e)
    | (more, none) => (items ++ more, none)

/-- `CognitiveScanner.listEventHubs` (cog.go lines 53-65). -/
def CognitiveScanner.listEventHubs (pages : List PageResult) :
    List ArmResource × Option GoError :=
  pagerList pages

/-- `MySQLFlexibleScanner.listFlexiblePostgre` (mysqlf.go lines 53-65). -/
def MySQLFlexibleScanner.listFlexiblePostgre (pages : List PageResult) :
    List ArmResource × Option GoError :=
  pagerList pages

/-- `DataExplorerScanner.listClusters` (part_000 lines 154-166). -/
def DataExplorerScanner.listClusters (pages : List PageResult) :
    List ArmResource × Option GoError :=
  pagerList pages

/-- The projection of one listed resource into an `AzureServiceResult`,
dereferencing `*r.Name`, `*r.Type`, `*r.Location` (a nil field is a Go
panic, hence `none`). `evalRules` is the composite
`engine.EvaluateRules(rules, resource, scanContext)` call. -/
def projectResult (cfg : ScannerConfig) (resourceGroupName : String)
    (scanContext : ScanContext) (evalRules : ArmResource → ScanContext → RuleResults)
    (r : ArmResource) : Option AzureServiceResult :=
  match r.Name, r.ResourceType, r.Location with
  | some n, some t, some l =>
    some { SubscriptionID := cfg.SubscriptionID
           SubscriptionName := cfg.SubscriptionName
           ResourceGroup := resourceGroupName
           ServiceName := n
           ResourceType := t
           Location := l
           Rules := evalRules r scanContext }
  | _, _, _ => none

/-- The `for _, r := range resources` loop of the three `Scan` functions:
project every listed resource in order, aborting on the first panic. -/
def projectAll (cfg : ScannerConfig) (resourceGroupName : String)
    (scanContext : ScanContext) (evalRules : ArmResource → ScanContext → RuleResults) :
    List ArmResource → Option (List AzureServiceResult)
  | [] => some []
  | r :: rest =>
    match projectResult cfg resourceGroupName scanContext evalRules r with
    | none => none
    | some res =>
      match projectAll cfg resourceGroupName scanContext evalRules rest with
      | none => none
      | some more => some (res :: more)

/-- The body shared verbatim by the three `Scan` functions: list all pages,
return `(nil, err)` on a listing error, otherwise build one result per
listed resource in listing order.  The outer `Option` is the panic monad
(a nil `Name`/`Type`/`Location` dereference aborts the whole call). -/
def scanImpl (cfg : ScannerConfig) (resourceGroupName : String)
    (scanContext : ScanContext) (evalRules : ArmResource → ScanContext → RuleResults)
    (pages : List PageResult) :
    Option (List AzureServiceResult × Option GoError) :=
  match pagerList pages with
  | (_, some e) => some ([], some e)
  | (resources, none) =>
    match projectAll cfg resourceGroupName scanContext evalRules resources with
    | none => none
    | some results => some (results, none)

/-- `CognitiveScanner.Scan` (cog.go lines 26-51). -/
def CognitiveScanner.Scan (cfg : ScannerConfig) (resourceGroupName : String)
    (scanContext : ScanContext) (evalRules : ArmResource → ScanContext → RuleResults)
    (pages : List PageResult) :
    Option (List AzureServiceResult × Option GoError) :=
  scanImpl cfg resourceGroupName scanContext evalRules pages

/-- `MySQLFlexibleScanner.Scan` (mysqlf.go lines 26-52). -/
def MySQLFlexibleScanner.Scan (cfg : ScannerConfig) (resourceGroupName : String)
    (scanContext : ScanContext) (evalRules : ArmResource → ScanContext → RuleResults)
    (pages : List PageResult) :
    Option (List AzureServiceResult × Option GoError) :=
  scanImpl cfg resourceGroupName scanContext evalRules pages

/-- `DataExplorerScanner.Scan` (part_000 lines 127-152). -/
def DataExplorerScanner.Scan (cfg : ScannerConfig) (resourceGroupName : String)
    (scanContext : ScanContext) (evalRules : ArmResource → ScanContext → RuleResults)
    (pages : List PageResult) :
    Option (List AzureServiceResult × Option GoError) :=
  scanImpl cfg resourceGroupName scanContext evalRules pages

/-! ## Rule catalogs (SignalR and CosmosDB)

The evaluation closures of part_000 receive `target interface{}` and begin
with a type assertion `target.(*armsignalr.ResourceInfo)` resp.
`target.(*armcosmos.DatabaseAccountGetResults)`; a dynamic value of any
other concrete type makes the assertion panic.  `Target` is the closed sum
of the concrete resource shapes that occur in the sources; a failed
assertion (any other constructor) is `none`. -/

/-- `scanners.RulesCategory` constants used by the catalogs. -/
inductive RulesCategory where
  | MonitoringAndAlerting
  | HighAvailability
  | Security
  | Governance
deriving Repr, DecidableEq

/-- `scanners.Impact` constants used by the catalogs. -/
inductive Impact where
  | Low
  | Medium
  | High
deriving Repr, DecidableEq

/-- `armsignalr.ResourceSku` (field `Name *string`). -/
structure ResourceSku where
  Name : Option String
deriving Repr, DecidableEq

/-- A private endpoint connection entry; the rules only take the length of
the slice, so the element carries no data. -/
structure PrivateEndpointConnection where
  ID : Option String
deriving Repr, DecidableEq

/-- `armsignalr.SignalRProperties`: the field the rules read. -/
structure SignalRProperties where
  PrivateEndpointConnections : List PrivateEndpointConnection
deriving Repr, DecidableEq

/-- `armsignalr.ResourceInfo`: the fields the SignalR rules read.  `SKU` and
`Properties` are nilable pointers in Go, `Tags` is a `map[string]*string`. -/
structure ResourceInfo where
  ID : Option String
  Name : Option String
  SKU : Option ResourceSku
  Properties : Option SignalRProperties
  Tags : List (String × Option String)
deriving Repr, DecidableEq

/-- `armcosmos.Location` (field `IsZoneRedundant *bool`). -/
structure CosmosLocation where
  IsZoneRedundant : Option Bool
deriving Repr, DecidableEq

/-- `armcosmos.DatabaseAccountGetProperties`: the fields the CosmosDB rules
read. -/
structure DatabaseAccountGetProperties where
  Locations : List CosmosLocation
  PrivateEndpointConnections : List PrivateEndpointConnection
  DatabaseAccountOfferType : Option String
  DisableLocalAuth : Option Bool
  DisableKeyBasedMetadataWriteAccess : Option Bool
deriving Repr, DecidableEq

/-- `armcosmos.DatabaseAccountGetResults`: the fields the CosmosDB rules
read. -/
structure DatabaseAccountGetResults where
  ID : Option String
  Name : Option String
  Properties : Option DatabaseAccountGetProperties
  Tags : List (String × Option String)
deriving Repr, DecidableEq

/-- The dynamic `interface{}` value handed to a rule: the closed set of
concrete resource shapes occurring in the sources.  `armGeneric` stands for
any of the other listed resource types (`armcognitiveservices.Account`,
`armmysqlflexibleservers.Server`, `armkusto.Cluster`, ...). -/
inductive Target where
  | signalR (r : ResourceInfo)
  | cosmos (r : DatabaseAccountGetResults)
  | armGeneric (r : ArmResource)
deriving Repr, DecidableEq

/-- `scanners.AzureRule` (fields populated by the catalogs).  `Eval` is the
evaluation closure; its `Option` result is the panic monad (failed type
assertion or nil dereference). -/
structure AzureRule where
  Id : String
  Category : RulesCategory
  Recommendation : String
  Impact : Impact
  Eval : Target → ScanContext → Option (Bool × String)
  Url : String

/-- sigr-001 evaluation closure (part_000 lines 21-25): diagnostics settings
lookup on the lower-cased `*service.ID`. -/
def sigr001Eval : Target → ScanContext → Option (Bool × String) :=
  fun target scanContext =>
    match target with
    | .signalR service =>
      match service.ID with
      | none => none
      | some id =>
        let ok := (scanContext.DiagnosticsSettings.lookup (strings.ToLower id)).isSome
        some (!ok, "")
    | _ => none

/-- sigr-002 evaluation closure (part_000 lines 33-41): availability zones
iff the SKU name contains "Premium"; dereferences `*i.SKU.Name`. -/
def sigr002Eval : Target → ScanContext → Option (Bool × String) :=
  fun target _ =>
    match target with
    | .signalR i =>
      match i.SKU with
      | none => none
      | some sku0 =>
        match sku0.Name with
        | none => none
        | some skuName =>
          let zones := strings.Contains skuName "Premium"
          some (!zones, "")
    | _ => none

/-- sigr-003 evaluation closure (part_000 lines 49-51): constant SLA, no
target inspection. -/
def sigr003Eval : Target → ScanContext → Option (Bool × String) :=
  fun _ _ => some (false, "99.9%")

/-- sigr-004 evaluation closure (part_000 lines 59-63): private endpoints;
dereferences `i.Properties`. -/
def sigr004Eval : Target → ScanContext → Option (Bool × String) :=
  fun target _ =>
    match target with
    | .signalR i =>
      match i.Properties with
      | none => none
      | some props =>
        let pe := decide (props.PrivateEndpointConnections.length > 0)
        some (!pe, "")
    | _ => none

/-- sigr-005 evaluation closure (part_000 lines 71-74): SKU name as detail;
dereferences `*i.SKU.Name`. -/
def sigr005Eval : Target → ScanContext → Option (Bool × String) :=
  fun target _ =>
    match target with
    | .signalR i =>
      match i.SKU with
      | none => none
      | some sku0 =>
        match sku0.Name with
        | none => none
        | some skuName => some (false, skuName)
    | _ => none

/-- sigr-006 evaluation closure (part_000 lines 82-85): CAF naming;
dereferences `*c.Name`. -/
def sigr006Eval : Target → ScanContext → Option (Bool × String) :=
  fun target _ =>
    match target with
    | .signalR c =>
      match c.Name with
      | none => none
      | some n =>
        let caf := n.startsWith "sigr"
        some (!caf, "")
    | _ => none

/-- sigr-007 evaluation closure (part_000 lines 94-96): triggered iff the
tag map is empty (`len` of a nil Go map is 0, no dereference). -/
def sigr007Eval : Target → ScanContext → Option (Bool × String) :=
  fun target _ =>
    match target with
    | .signalR c => some (c.Tags.length == 0, "")
    | _ => none

/-- `SignalRScanner.GetRules` (part_000 lines 14-101): the Go map literal as
an association list in source order. -/
def SignalRScanner.GetRules : List (String × AzureRule) :=
  [ ("sigr-001",
     { Id := "sigr-001"
       Category := .MonitoringAndAlerting
       Recommendation := "SignalR should have diagnostic settings enabled"
       Impact := .Low
       Eval := sigr001Eval
       Url := "https://learn.microsoft.com/en-us/azure/azure-signalr/signalr-howto-diagnostic-logs" }),
    ("sigr-002",
     { Id := "sigr-002"
       Category := .HighAvailability
       Recommendation := "SignalR should have availability zones enabled"
       Impact := .High
       Eval := sigr002Eval
       Url := "https://learn.microsoft.com/en-us/azure/azure-signalr/availability-zones" }),
    ("sigr-003",
     { Id := "sigr-003"
       Category := .HighAvailability
       Recommendation := "SignalR should have a SLA"
       Impact := .High
       Eval := sigr003Eval
       Url := "https://www.azure.cn/en-us/support/sla/signalr-service/" }),
    ("sigr-004",
     { Id := "sigr-004"
       Category := .Security
       Recommendation := "SignalR should have private endpoints enabled"
       Impact := .High
       Eval := sigr004Eval
       Url := "https://learn.microsoft.com/en-us/azure/azure-signalr/howto-private-endpoints" }),
    ("sigr-005",
     { Id := "sigr-005"
       Category := .HighAvailability
       Recommendation := "SignalR SKU"
       Impact := .High
       Eval := sigr005Eval
       Url := "https://azure.microsoft.com/en-us/pricing/details/signalr-service/" }),
    ("sigr-006",
     { Id := "sigr-006"
       Category := .Governance
       Recommendation := "SignalR Name should comply with naming conventions"
       Impact := .Low
       Eval := sigr006Eval
       Url := "https://learn.microsoft.com/en-us/azure/cloud-adoption-framework/ready/azure-best-practices/resource-abbreviations" }),
    ("sigr-007",
     { Id := "sigr-007"
       Category := .Governance
       Recommendation := "SignalR should have tags"
       Impact := .Low
       Eval := sigr007Eval
       Url := "https://learn.microsoft.com/en-us/azure/azure-resource-manager/management/tag-resources?tabs=json" }) ]

/-- cosmos-001 evaluation closure (part_000 lines 187-191): diagnostics
settings lookup on the lower-cased `*service.ID`. -/
def cosmos001Eval : Target → ScanContext → Option (Bool × String) :=
  fun target scanContext =>
    match target with
    | .cosmos service =>
      match service.ID with
      | none => none
      | some id =>
        let ok := (scanContext.DiagnosticsSettings.lookup (strings.ToLower id)).isSome
        some (!ok, "")
    | _ => none

/-- The loop of cosmos-002 (part_000 lines 201-211) over
`i.Properties.Locations`: threads the flags `availabilityZones`,
`availabilityZonesNotEnabledInALocation` and the counter
`numberOfLocations`; dereferencing a nil `*location.IsZoneRedundant`
panics. -/
def cosmosZoneLoop : List CosmosLocation → Bool → Bool → Nat →
    Option (Bool × Bool × Nat)
  | [], az, nz, n => some (az, nz, n)
  | l :: rest, az, nz, n =>
    match l.IsZoneRedundant with
    | none => none
    | some z =>
      if z then cosmosZoneLoop rest true nz (n + 1)
      else cosmosZoneLoop rest az true (n + 1)

/-- cosmos-002 evaluation closure (part_000 lines 199-216): availability
zones iff at least two locations and all of them zone redundant. -/
def cosmos002Eval : Target → ScanContext → Option (Bool × String) :=
  fun target _ =>
    match target with
    | .cosmos i =>
      match i.Properties with
      | none => none
      | some props =>
        match cosmosZoneLoop props.Locations false false 0 with
        | none => none
        | some (az, nz, n) =>
          let zones := az && decide (n ≥ 2) && !nz
          some (!zones, "")
    | _ => none

/-- The loop of cosmos-003 (part_000 lines 230-238): like `cosmosZoneLoop`
but additionally setting `sla` to "99.995%" whenever a zone-redundant
location is seen. -/
def cosmosSlaLoop : List CosmosLocation → String → Bool → Bool → Nat →
    Option (String × Bool × Bool × Nat)
  | [], sla, az, nz, n => some (sla, az, nz, n)
  | l :: rest, sla, az, nz, n =>
    match l.IsZoneRedundant with
    | none => none
    | some z =>
      if z then cosmosSlaLoop rest "99.995%" true nz (n + 1)
      else cosmosSlaLoop rest sla az true (n + 1)

/-- cosmos-003 evaluation closure (part_000 lines 224-244): never triggered,
detail is the SLA derived from the zone-redundancy of the locations. -/
def cosmos003Eval : Target → ScanContext → Option (Bool × String) :=
  fun target _ =>
    match target with
    | .cosmos i =>
      match i.Properties with
      | none => none
      | some props =>
        match cosmosSlaLoop props.Locations "99.99%" false false 0 with
        | none => none
        | some (sla, az, nz, n) =>
          let sla := if az && decide (n ≥ 2) && !nz then "99.999%" else sla
          some (false, sla)
    | _ => none

/-- cosmos-004 evaluation closure (part_000 lines 252-256): private
endpoints; dereferences `i.Properties`. -/
def cosmos004Eval : Target → ScanContext → Option (Bool × String) :=
  fun target _ =>
    match target with
    | .cosmos i =>
      match i.Properties with
      | none => none
      | some props =>
        let pe := decide (props.PrivateEndpointConnections.length > 0)
        some (!pe, "")
    | _ => none

/-- cosmos-005 evaluation closure (part_000 lines 264-267): offer type as
detail; dereferences `*i.Properties.DatabaseAccountOfferType`. -/
def cosmos005Eval : Target → ScanContext → Option (Bool × String) :=
  fun target _ =>
    match target with
    | .cosmos i =>
      match i.Properties with
      | none => none
      | some props =>
        match props.DatabaseAccountOfferType with
        | none => none
        | some offer => some (false, offer)
    | _ => none

/-- cosmos-006 evaluation closure (part_000 lines 275-278): CAF naming;
dereferences `*c.Name`. -/
def cosmos006Eval : Target → ScanContext → Option (Bool × String) :=
  fun target _ =>
    match target with
    | .cosmos c =>
      match c.Name with
      | none => none
      | some n =>
        let caf := n.startsWith "cosmos"
        some (!caf, "")
    | _ => none

/-- cosmos-007 evaluation closure (part_000 lines 287-289): triggered iff
the tag map is empty. -/
def cosmos007Eval : Target → ScanContext → Option (Bool × String) :=
  fun target _ =>
    match target with
    | .cosmos c => some (c.Tags.length == 0, "")
    | _ => none

/-- cosmos-008 evaluation closure (part_000 lines 298-301): local auth
disabled; guards the nil pointer with `!= nil &&`. -/
def cosmos008Eval : Target → ScanContext → Option (Bool × String) :=
  fun target _ =>
    match target with
    | .cosmos c =>
      match c.Properties with
      | none => none
      | some props =>
        let localAuth := props.DisableLocalAuth.getD false
        some (!localAuth, "")
    | _ => none

/-- cosmos-009 evaluation closure (part_000 lines 310-313): key-based
metadata write access disabled; guards the nil pointer with `!= nil &&`. -/
def cosmos009Eval : Target → ScanContext → Option (Bool × String) :=
  fun target _ =>
    match target with
    | .cosmos c =>
      match c.Properties with
      | none => none
      | some props =>
        let disabled := props.DisableKeyBasedMetadataWriteAccess.getD false
        some (!disabled, "")
    | _ => none

/-- `CosmosDBScanner.GetRules` (part_000 lines 180-318): the Go map literal
as an association list in source order. -/
def CosmosDBScanner.GetRules : List (String × AzureRule) :=
  [ ("cosmos-001",
     { Id := "cosmos-001"
       Category := .MonitoringAndAlerting
       Recommendation := "CosmosDB should have diagnostic settings enabled"
       Impact := .Low
       Eval := cosmos001Eval
       Url := "https://learn.microsoft.com/en-us/azure/cosmos-db/monitor-resource-logs" }),
    ("cosmos-002",
     { Id := "cosmos-002"
       Category := .HighAvailability
       Recommendation := "CosmosDB should have availability zones enabled"
       Impact := .High
       Eval := cosmos002Eval
       Url := "https://learn.microsoft.com/en-us/azure/cosmos-db/high-availability" }),
    ("cosmos-003",
     { Id := "cosmos-003"
       Category := .HighAvailability
       Recommendation := "CosmosDB should have a SLA"
       Impact := .High
       Eval := cosmos003Eval
       Url := "https://learn.microsoft.com/en-us/azure/cosmos-db/high-availability#slas" }),
    ("cosmos-004",
     { Id := "cosmos-004"
       Category := .Security
       Recommendation := "CosmosDB should have private endpoints enabled"
       Impact := .High
       Eval := cosmos004Eval
       Url := "https://learn.microsoft.com/en-us/azure/cosmos-db/how-to-configure-private-endpoints" }),
    ("cosmos-005",
     { Id := "cosmos-005"
       Category := .HighAvailability
       Recommendation := "CosmosDB SKU"
       Impact := .High
       Eval := cosmos005Eval
       Url := "https://azure.microsoft.com/en-us/pricing/details/cosmos-db/autoscale-provisioned/" }),
    ("cosmos-006",
     { Id := "cosmos-006"
       Category := .Governance
       Recommendation := "CosmosDB Name should comply with naming conventions"
       Impact := .Low
       Eval := cosmos006Eval
       Url := "https://learn.microsoft.com/en-us/azure/cloud-adoption-framework/ready/azure-best-practices/resource-abbreviations" }),
    ("cosmos-007",
     { Id := "cosmos-007"
       Category := .Governance
       Recommendation := "CosmosDB should have tags"
       Impact := .Low
       Eval := cosmos007Eval
       Url := "https://learn.microsoft.com/en-us/azure/azure-resource-manager/management/tag-resources?tabs=json" }),
    ("cosmos-008",
     { Id := "cosmos-008"
       Category := .Security
       Recommendation := "CosmosDB should have local authentication disabled"
       Impact := .High
       Eval := cosmos008Eval
       Url := "https://learn.microsoft.com/en-us/azure/cosmos-db/how-to-setup-rbac#disable-local-auth" }),
    ("cosmos-009",
     { Id := "cosmos-009"
       Category := .Security
       Recommendation := "CosmosDB: disable write operations on metadata resources (databases, containers, throughput) via account keys"
       Impact := .High
       Eval := cosmos009Eval
       Url := "https://learn.microsoft.com/en-us/azure/cosmos-db/role-based-access-control#set-via-arm-template" }) ]

/-! ## Helper lemmas about the pagination loop and the scan body -/

/-- If every page before it succeeds, the first failing page aborts the
listing with its error and an empty accumulation. -/
theorem pagerList_first_error (pre : List PageResult) (vals : List ArmResource)
    (e : GoError) (post : List PageResult) (h : ∀ p ∈ pre, p.2 = none) :
    pagerList (pre ++ (vals, some e) :: post) = ([], some e) := by
  induction pre with
  | nil => simp [pagerList]
  | cons p rest ih =>
    obtain ⟨items, err⟩ := p
    have hp : err = none := h (items, err) (by simp)
    subst hp
    have hrest : ∀ q ∈ rest, q.2 = none := fun q hq => h q (by simp [hq])
    simp only [List.cons_append, pagerList]
    simp [List.append_eq, ih hrest]

/-- A listing over error-free pages returns the concatenation of the pages
and a nil error. -/
theorem pagerList_all_ok (pageLists : List (List ArmResource)) :
    pagerList (pageLists.map (fun l => (l, none))) = (pageLists.flatten, none) := by
  induction pageLists with
  | nil => simp [pagerList]
  | cons l rest ih => simp [pagerList, ih]

/-- `scanImpl` on a listing whose first failure carries `e` returns
`(nil, e)`. -/
theorem scanImpl_first_error (cfg : ScannerConfig) (rg : String) (ctx : ScanContext)
    (evalRules : ArmResource → ScanContext → RuleResults) (pre : List PageResult)
    (vals : List ArmResource) (e : GoError) (post : List PageResult)
    (h : ∀ p ∈ pre, p.2 = none) :
    scanImpl cfg rg ctx evalRules (pre ++ (vals, some e) :: post) = some ([], some e) := by
  simp [scanImpl, pagerList_first_error pre vals e post h]

/-- `scanImpl` never pairs a non-nil error with a non-empty result slice. -/
theorem scanImpl_error_no_partial (cfg : ScannerConfig) (rg : String)
    (ctx : ScanContext) (evalRules : ArmResource → ScanContext → RuleResults)
    (pages : List PageResult) (results : List AzureServiceResult) (e : GoError)
    (h : scanImpl cfg rg ctx evalRules pages = some (results, some e)) :
    results = [] := by
  unfold scanImpl at h
  rcases hp : pagerList pages with ⟨resources, err⟩
  rw [hp] at h
  match err with
  | some e2 => simp_all
  | none =>
    simp only at h
    rcases hm : projectAll cfg rg ctx evalRules resources with _ | rs <;>
      rw [hm] at h <;> simp_all

/-- The Result the sources build for one listed item whose `Name`, `Type`
and `Location` pointers are non-nil (stated with `getD` for totality; the
claims only use it under that hypothesis). -/
def specResult (cfg : ScannerConfig) (resourceGroupName : String)
    (scanContext : ScanContext) (evalRules : ArmResource → ScanContext → RuleResults)
    (r : ArmResource) : AzureServiceResult :=
  { SubscriptionID := cfg.SubscriptionID
    SubscriptionName := cfg.SubscriptionName
    ResourceGroup := resourceGroupName
    ServiceName := r.Name.getD ""
    ResourceType := r.ResourceType.getD ""
    Location := r.Location.getD ""
    Rules := evalRules r scanContext }

/-- Projecting a list of resources whose identity pointers are all non-nil
succeeds and yields `specResult` in order. -/
theorem projectAll_complete (cfg : ScannerConfig) (rg : String) (ctx : ScanContext)
    (evalRules : ArmResource → ScanContext → RuleResults) (rs : List ArmResource)
    (h : ∀ r ∈ rs, r.Name.isSome ∧ r.ResourceType.isSome ∧ r.Location.isSome) :
    projectAll cfg rg ctx evalRules rs =
      some (rs.map (specResult cfg rg ctx evalRules)) := by
  induction rs with
  | nil => simp [projectAll]
  | cons r rest ih =>
    have hr := h r (by simp)
    have hrest : ∀ x ∈ rest,
        x.Name.isSome ∧ x.ResourceType.isSome ∧ x.Location.isSome :=
      fun x hx => h x (by simp [hx])
    obtain ⟨n, hn⟩ := Option.isSome_iff_exists.mp hr.1
    obtain ⟨t, ht⟩ := Option.isSome_iff_exists.mp hr.2.1
    obtain ⟨l, hl⟩ := Option.isSome_iff_exists.mp hr.2.2
    simp [projectAll, ih hrest, projectResult, specResult, hn, ht, hl]

/-- `scanImpl` over error-free pages with complete identity fields: one
result per item, in listing order. -/
theorem scanImpl_ok (cfg : ScannerConfig) (rg : String) (ctx : ScanContext)
    (evalRules : ArmResource → ScanContext → RuleResults)
    (pageLists : List (List ArmResource))
    (h : ∀ r ∈ pageLists.flatten,
      r.Name.isSome ∧ r.ResourceType.isSome ∧ r.Location.isSome) :
    scanImpl cfg rg ctx evalRules (pageLists.map (fun l => (l, none))) =
      some (pageLists.flatten.map (specResult cfg rg ctx evalRules), none) := by
  simp [scanImpl, pagerList_all_ok, projectAll_complete cfg rg ctx evalRules _ h]

/-! ## Concrete fixtures used by the witnesses -/

/-- A sample scanner configuration. -/
def sampleConfig : ScannerConfig :=
  { SubscriptionID := "subscription-1", SubscriptionName := "sub-one" }

/-- A scan context with an empty diagnostics index. -/
def emptyContext : ScanContext :=
  { DiagnosticsSettings := [], SubscriptionFeatures := [] }

/-- A rule evaluation stand-in returning the empty outcome map. -/
def noRules : ArmResource → ScanContext → RuleResults := fun _ _ => []

/-- A fully-populated sample resource. -/
def sampleResource : ArmResource :=
  { Name := some "svc-a", ResourceType := some "Microsoft.Sample/type", Location := some "westeurope" }

/-- Five fully-populated resources split into a page of three and a page of
two. -/
def samplePages : List (List ArmResource) :=
  [ [ { Name := some "svc-1", ResourceType := some "T1", Location := some "l1" },
      { Name := some "svc-2", ResourceType := some "T2", Location := some "l2" },
      { Name := some "svc-3", ResourceType := some "T3", Location := some "l3" } ],
    [ { Name := some "svc-4", ResourceType := some "T4", Location := some "l4" },
      { Name := some "svc-5", ResourceType := some "T5", Location := some "l5" } ] ]

/-! ## The claims -/

/-- Claim C1: for every Scanner variant and every resource group, if any
page retrieval during listing returns an error, `Scan` returns
`(nil, that error)` and produces no partial Results: the returned Result
slice is empty whenever the error is non-nil (all-or-nothing per
resource-group-per-type). -/
theorem claim_C1_scan_all_or_nothing :
    (∀ (cfg : ScannerConfig) (rg : String) (ctx : ScanContext)
       (evalRules : ArmResource → ScanContext → RuleResults)
       (pre : List PageResult) (vals : List ArmResource) (e : GoError)
       (post : List PageResult), (∀ p ∈ pre, p.2 = none) →
       CognitiveScanner.Scan cfg rg ctx evalRules (pre ++ (vals, some e) :: post)
           = some ([], some e) ∧
       MySQLFlexibleScanner.Scan cfg rg ctx evalRules (pre ++ (vals, some e) :: post)
           = some ([], some e) ∧
       DataExplorerScanner.Scan cfg rg ctx evalRules (pre ++ (vals, some e) :: post)
           = some ([], some e)) ∧
    (∀ cfg rg ctx evalRules pages results e,
       CognitiveScanner.Scan cfg rg ctx evalRules pages = some (results, some e) →
       results = []) ∧
    (∀ cfg rg ctx evalRules pages results e,
       MySQLFlexibleScanner.Scan cfg rg ctx evalRules pages = some (results, some e) →
       results = []) ∧
    (∀ cfg rg ctx evalRules pages results e,
       DataExplorerScanner.Scan cfg rg ctx evalRules pages = some (results, some e) →
       results = []) := by
  refine ⟨fun cfg rg ctx f pre vals e post h => ?_, ?_, ?_, ?_⟩
  · exact ⟨scanImpl_first_error cfg rg ctx f pre vals e post h,
      scanImpl_first_error cfg rg ctx f pre vals e post h,
      scanImpl_first_error cfg rg ctx f pre vals e post h⟩
  · exact fun cfg rg ctx f pages results e h =>
      scanImpl_error_no_partial cfg rg ctx f pages results e h
  · exact fun cfg rg ctx f pages results e h =>
      scanImpl_error_no_partial cfg rg ctx f pages results e h
  · exact fun cfg rg ctx f pages results e h =>
      scanImpl_error_no_partial cfg rg ctx f pages results e h

/-- Witness for C1: one successful page followed by a failing page makes
`CognitiveScanner.Scan` return `(nil, that error)`. -/
theorem claim_C1_scan_all_or_nothing_witness :
    (∀ p ∈ ([([sampleResource], none)] : List PageResult), p.2 = none) ∧
    CognitiveScanner.Scan sampleConfig "rg-1" emptyContext noRules
        ([([sampleResource], none)] ++ ([], some "page 2 failed") :: [])
      = some ([], some "page 2 failed") :=
  ⟨by decide,
   (claim_C1_scan_all_or_nothing.1 sampleConfig "rg-1" emptyContext noRules
      [([sampleResource], none)] [] "page 2 failed" [] (by decide)).1⟩

/-- Claim C2: over successful pages, each Scanner variant returns exactly
one Result per listed item, in listing order, with `ServiceName`, `Type`
and `Location` copied from the item, subscription fields from the config,
and `ResourceGroup` equal to the argument (`specResult` spells these
fields out); zero listed items yield the empty sequence and a nil error. -/
theorem claim_C2_scan_projects_each_item :
    ∀ (cfg : ScannerConfig) (rg : String) (ctx : ScanContext)
      (evalRules : ArmResource → ScanContext → RuleResults)
      (pageLists : List (List ArmResource)),
      (∀ r ∈ pageLists.flatten,
        r.Name.isSome ∧ r.ResourceType.isSome ∧ r.Location.isSome) →
      CognitiveScanner.Scan cfg rg ctx evalRules (pageLists.map (fun l => (l, none)))
          = some (pageLists.flatten.map (specResult cfg rg ctx evalRules), none) ∧
      MySQLFlexibleScanner.Scan cfg rg ctx evalRules (pageLists.map (fun l => (l, none)))
          = some (pageLists.flatten.map (specResult cfg rg ctx evalRules), none) ∧
      DataExplorerScanner.Scan cfg rg ctx evalRules (pageLists.map (fun l => (l, none)))
          = some (pageLists.flatten.map (specResult cfg rg ctx evalRules), none) := by
  intro cfg rg ctx f pls h
  exact ⟨scanImpl_ok cfg rg ctx f pls h, scanImpl_ok cfg rg ctx f pls h,
    scanImpl_ok cfg rg ctx f pls h⟩

/-- Witness for C2: pages of 3 then 2 fully-populated items yield exactly 5
Results with the projected fields. -/
theorem claim_C2_scan_projects_each_item_witness :
    (∀ r ∈ samplePages.flatten,
      r.Name.isSome ∧ r.ResourceType.isSome ∧ r.Location.isSome) ∧
    CognitiveScanner.Scan sampleConfig "rg-1" emptyContext noRules
        (samplePages.map (fun l => (l, none)))
      = some (samplePages.flatten.map (specResult sampleConfig "rg-1" emptyContext noRules), none) ∧
    (samplePages.flatten.map (specResult sampleConfig "rg-1" emptyContext noRules)).length = 5 :=
  ⟨by decide,
   (claim_C2_scan_projects_each_item sampleConfig "rg-1" emptyContext noRules
      samplePages (by decide)).1,
   by rfl⟩

/-- Claim C9: two invocations of `Scan` against an unchanged backing
resource set (the lister yields the same pages both times) return identical
Result sequences, for every variant, configuration, resource group and
context. -/
theorem claim_C9_scan_idempotent :
    ∀ (cfg : ScannerConfig) (rg : String) (ctx : ScanContext)
      (evalRules : ArmResource → ScanContext → RuleResults)
      (pages1 pages2 : List PageResult), pages1 = pages2 →
      CognitiveScanner.Scan cfg rg ctx evalRules pages1
          = CognitiveScanner.Scan cfg rg ctx evalRules pages2 ∧
      MySQLFlexibleScanner.Scan cfg rg ctx evalRules pages1
          = MySQLFlexibleScanner.Scan cfg rg ctx evalRules pages2 ∧
      DataExplorerScanner.Scan cfg rg ctx evalRules pages1
          = DataExplorerScanner.Scan cfg rg ctx evalRules pages2 := by
  intro cfg rg ctx f p1 p2 h
  subst h
  exact ⟨rfl, rfl, rfl⟩

/-- Witness for C9 at a concrete unchanged page sequence. -/
theorem claim_C9_scan_idempotent_witness :
    ([([sampleResource], none)] : List PageResult) = [([sampleResource], none)] ∧
    CognitiveScanner.Scan sampleConfig "rg-1" emptyContext noRules [([sampleResource], none)]
      = CognitiveScanner.Scan sampleConfig "rg-1" emptyContext noRules [([sampleResource], none)] :=
  ⟨rfl,
   (claim_C9_scan_idempotent sampleConfig "rg-1" emptyContext noRules
      [([sampleResource], none)] [([sampleResource], none)] rfl).1⟩

/-! ## Fixtures for the rule-level claims -/

/-- A context whose diagnostics index holds the lower-cased id "/sub/a". -/
def diagContext : ScanContext :=
  { DiagnosticsSettings := [("/sub/a", true)], SubscriptionFeatures := [] }

/-- Same diagnostics index as `diagContext`, different feature flags. -/
def diagContextAlt : ScanContext :=
  { DiagnosticsSettings := [("/sub/a", true)], SubscriptionFeatures := [("flag", true)] }

/-- A fully-populated SignalR resource with an upper-cased identifier and no
tags. -/
def sampleSignalR : ResourceInfo :=
  { ID := some "/SUB/A"
    Name := some "sigr-x"
    SKU := some { Name := some "Premium_P1" }
    Properties := some { PrivateEndpointConnections := [] }
    Tags := [] }

/-- `sampleSignalR` with one tag. -/
def sampleSignalRTagged : ResourceInfo :=
  { sampleSignalR with Tags := [("env", some "prod")] }

/-- A SignalR resource whose `SKU.Name` pointer is nil. -/
def nilSkuSignalR : ResourceInfo :=
  { ID := some "/sub/a"
    Name := some "sigr-y"
    SKU := some { Name := none }
    Properties := some { PrivateEndpointConnections := [] }
    Tags := [] }

/-- Cosmos account properties with one location whose `IsZoneRedundant`
pointer is nil. -/
def nilZoneCosmosProps : DatabaseAccountGetProperties :=
  { Locations := [{ IsZoneRedundant := none }]
    PrivateEndpointConnections := []
    DatabaseAccountOfferType := some "Standard"
    DisableLocalAuth := some true
    DisableKeyBasedMetadataWriteAccess := some true }

/-- A Cosmos account with a nil `IsZoneRedundant` in its only location. -/
def nilZoneCosmos : DatabaseAccountGetResults :=
  { ID := some "/sub/c", Name := some "cosmos-y"
    Properties := some nilZoneCosmosProps, Tags := [] }

/-- A Cosmos account whose `DisableLocalAuth` pointer is nil. -/
def nilLocalAuthCosmos : DatabaseAccountGetResults :=
  { ID := some "/sub/c"
    Name := some "cosmos-z"
    Properties := some
      { Locations := []
        PrivateEndpointConnections := []
        DatabaseAccountOfferType := some "Standard"
        DisableLocalAuth := none
        DisableKeyBasedMetadataWriteAccess := some true }
    Tags := [] }

/-- Cosmos account properties with two zone-redundant locations. -/
def zrCosmosProps : DatabaseAccountGetProperties :=
  { Locations := [{ IsZoneRedundant := some true }, { IsZoneRedundant := some true }]
    PrivateEndpointConnections := []
    DatabaseAccountOfferType := some "Standard"
    DisableLocalAuth := some true
    DisableKeyBasedMetadataWriteAccess := some true }

/-- A Cosmos account with two zone-redundant locations. -/
def zrCosmos : DatabaseAccountGetResults :=
  { ID := some "/sub/c", Name := some "cosmos-zr"
    Properties := some zrCosmosProps, Tags := [] }

/-- Claim C3: for every resource with a non-nil identifier and every
context whose diagnostics index is keyed by lower-cased identifiers, the
diagnostics rule (sigr-001 / cosmos-001) is not triggered exactly when the
lower-casing of the identifier is a key of the index and triggered when it
is absent, with an empty detail, whatever the letter case of the
identifier. -/
theorem claim_C3_diagnostics_rule_lookup :
    ∀ (ctx : ScanContext),
      (∀ kv ∈ ctx.DiagnosticsSettings, strings.ToLower kv.1 = kv.1) →
      (∀ (service : ResourceInfo) (id : String), service.ID = some id →
        ∃ triggered,
          sigr001Eval (Target.signalR service) ctx = some (triggered, "") ∧
          (triggered = false ↔
            (ctx.DiagnosticsSettings.lookup (strings.ToLower id)).isSome = true)) ∧
      (∀ (account : DatabaseAccountGetResults) (id : String), account.ID = some id →
        ∃ triggered,
          cosmos001Eval (Target.cosmos account) ctx = some (triggered, "") ∧
          (triggered = false ↔
            (ctx.DiagnosticsSettings.lookup (strings.ToLower id)).isSome = true)) := by
  intro ctx _
  refine ⟨fun service id hid => ?_, fun account id hid => ?_⟩
  · refine ⟨!(ctx.DiagnosticsSettings.lookup (strings.ToLower id)).isSome, ?_, ?_⟩
    · simp [sigr001Eval, hid]
    · cases (ctx.DiagnosticsSettings.lookup (strings.ToLower id)).isSome <;> simp
  · refine ⟨!(ctx.DiagnosticsSettings.lookup (strings.ToLower id)).isSome, ?_, ?_⟩
    · simp [cosmos001Eval, hid]
    · cases (ctx.DiagnosticsSettings.lookup (strings.ToLower id)).isSome <;> simp

/-- Witness for C3: the identifier "/SUB/A" (upper case) is found in the
index keyed by "/sub/a", so sigr-001 is not triggered. -/
theorem claim_C3_diagnostics_rule_lookup_witness :
    ∃ triggered,
      sigr001Eval (Target.signalR sampleSignalR) diagContext = some (triggered, "") ∧
      (triggered = false ↔
        (diagContext.DiagnosticsSettings.lookup (strings.ToLower "/SUB/A")).isSome = true) :=
  (claim_C3_diagnostics_rule_lookup diagContext (by decide)).1 sampleSignalR "/SUB/A" rfl

/-- Claim C4 evaluated at the failing inputs: the sources are inconsistent
on absent optional fields.  sigr-002 dereferences a nil `SKU.Name` and
aborts, cosmos-002 dereferences a nil `IsZoneRedundant` and aborts, while
cosmos-008 guards its nil `DisableLocalAuth` and returns the defined
outcome `(true, "")`. -/
theorem claim_C4_nil_optional_field_aborts :
    sigr002Eval (Target.signalR nilSkuSignalR) emptyContext = none ∧
    cosmos002Eval (Target.cosmos nilZoneCosmos) emptyContext = none ∧
    cosmos008Eval (Target.cosmos nilLocalAuthCosmos) emptyContext = some (true, "") :=
  ⟨rfl, rfl, rfl⟩

/-- Claim C5: every rule evaluator in the two catalogs that inspects its
target (all but sigr-003) aborts with a panic-equivalent failure (the
failed type assertion, `none` in the embedding) on any target whose
concrete type is not the catalog's expected resource type. -/
theorem claim_C5_type_mismatch_panics :
    (∀ kv ∈ SignalRScanner.GetRules, kv.1 ≠ "sigr-003" →
      ∀ (t : Target) (ctx : ScanContext), (∀ r, t ≠ Target.signalR r) →
        kv.2.Eval t ctx = none) ∧
    (∀ kv ∈ CosmosDBScanner.GetRules,
      ∀ (t : Target) (ctx : ScanContext), (∀ r, t ≠ Target.cosmos r) →
        kv.2.Eval t ctx = none) := by
  constructor
  · intro kv hkv
    fin_cases hkv <;> intro hne t ctx hmis <;>
      first
        | exact absurd rfl hne
        | cases t with
          | signalR r => exact absurd rfl (hmis r)
          | cosmos r => rfl
          | armGeneric r => rfl
  · intro kv hkv
    fin_cases hkv <;> intro t ctx hmis <;>
      cases t with
      | signalR r => rfl
      | cosmos r => exact absurd rfl (hmis r)
      | armGeneric r => rfl

/-- Witness for C5: sigr-001 on a non-SignalR value and cosmos-001 on a
SignalR value both abort. -/
theorem claim_C5_type_mismatch_panics_witness :
    (SignalRScanner.GetRules.get ⟨0, by decide⟩).2.Eval
        (Target.armGeneric sampleResource) emptyContext = none ∧
    (CosmosDBScanner.GetRules.get ⟨0, by decide⟩).2.Eval
        (Target.signalR sampleSignalR) emptyContext = none :=
  ⟨claim_C5_type_mismatch_panics.1 _ (List.get_mem _ _ _) (by decide)
      (Target.armGeneric sampleResource) emptyContext (fun r h => Target.noConfusion h),
   claim_C5_type_mismatch_panics.2 _ (List.get_mem _ _ _)
      (Target.signalR sampleSignalR) emptyContext (fun r h => Target.noConfusion h)⟩

/-- Claim C6: the tags rule (sigr-007 / cosmos-007) evaluates to
`(true, "")` exactly when the resource's tag map is empty and to
`(false, "")` when it holds at least one tag. -/
theorem claim_C6_tags_rule :
    ∀ (ctx : ScanContext),
      (∀ c : ResourceInfo, c.Tags.length = 0 →
        sigr007Eval (Target.signalR c) ctx = some (true, "")) ∧
      (∀ c : ResourceInfo, 0 < c.Tags.length →
        sigr007Eval (Target.signalR c) ctx = some (false, "")) ∧
      (∀ c : DatabaseAccountGetResults, c.Tags.length = 0 →
        cosmos007Eval (Target.cosmos c) ctx = some (true, "")) ∧
      (∀ c : DatabaseAccountGetResults, 0 < c.Tags.length →
        cosmos007Eval (Target.cosmos c) ctx = some (false, "")) := by
  intro ctx
  refine ⟨fun c h => ?_, fun c h => ?_, fun c h => ?_, fun c h => ?_⟩
  · simp [sigr007Eval, h]
  · have hne : c.Tags.length ≠ 0 := Nat.pos_iff_ne_zero.mp h
    simp [sigr007Eval, hne]
  · simp [cosmos007Eval, h]
  · have hne : c.Tags.length ≠ 0 := Nat.pos_iff_ne_zero.mp h
    simp [cosmos007Eval, hne]

/-- Witness for C6: resource A without tags triggers, resource B with one
tag does not. -/
theorem claim_C6_tags_rule_witness :
    sampleSignalR.Tags.length = 0 ∧
    sigr007Eval (Target.signalR sampleSignalR) emptyContext = some (true, "") ∧
    0 < sampleSignalRTagged.Tags.length ∧
    sigr007Eval (Target.signalR sampleSignalRTagged) emptyContext = some (false, "") :=
  ⟨rfl, (claim_C6_tags_rule emptyContext).1 sampleSignalR rfl,
   by decide, (claim_C6_tags_rule emptyContext).2.1 sampleSignalRTagged (by decide)⟩

/-- Claim C7: in both catalogs rule ids are unique and every entry's `Id`
field equals the key under which it is stored. -/
theorem claim_C7_catalog_ids_unique :
    ((SignalRScanner.GetRules.map Prod.fst).Nodup ∧
      SignalRScanner.GetRules.all (fun kv => kv.2.Id == kv.1) = true) ∧
    ((CosmosDBScanner.GetRules.map Prod.fst).Nodup ∧
      CosmosDBScanner.GetRules.all (fun kv => kv.2.Id == kv.1) = true) :=
  ⟨⟨by decide, by rfl⟩, ⟨by decide, by rfl⟩⟩

/-! ## Frame lemmas for C8 -/

/-- sigr-001 reads the context only through its diagnostics index. -/
theorem sigr001Eval_frame (t : Target) (ctx1 ctx2 : ScanContext)
    (h : ctx1.DiagnosticsSettings = ctx2.DiagnosticsSettings) :
    sigr001Eval t ctx1 = sigr001Eval t ctx2 := by
  cases t with
  | signalR s => cases hs : s.ID <;> simp [sigr001Eval, hs, h]
  | cosmos r => rfl
  | armGeneric r => rfl

/-- cosmos-001 reads the context only through its diagnostics index. -/
theorem cosmos001Eval_frame (t : Target) (ctx1 ctx2 : ScanContext)
    (h : ctx1.DiagnosticsSettings = ctx2.DiagnosticsSettings) :
    cosmos001Eval t ctx1 = cosmos001Eval t ctx2 := by
  cases t with
  | signalR s => rfl
  | cosmos r => cases hr : r.ID <;> simp [cosmos001Eval, hr, h]
  | armGeneric r => rfl

/-- Claim C8: every rule evaluator in the two catalogs is a pure function
whose outcome depends on the context only through the diagnostics index it
reads; in the embedding no evaluator can mutate the context (they have
type `Target → ScanContext → Option (Bool × String)`), and determinism is
by construction. -/
theorem claim_C8_rules_pure_readers :
    ∀ kv ∈ SignalRScanner.GetRules ++ CosmosDBScanner.GetRules,
      ∀ (t : Target) (ctx1 ctx2 : ScanContext),
        ctx1.DiagnosticsSettings = ctx2.DiagnosticsSettings →
        kv.2.Eval t ctx1 = kv.2.Eval t ctx2 := by
  intro kv hkv t ctx1 ctx2 h
  fin_cases hkv <;>
    first
      | exact sigr001Eval_frame t ctx1 ctx2 h
      | exact cosmos001Eval_frame t ctx1 ctx2 h
      | rfl

/-- Witness for C8: sigr-001 evaluates identically under two contexts that
agree on the diagnostics index but differ in their feature flags. -/
theorem claim_C8_rules_pure_readers_witness :
    (SignalRScanner.GetRules.get ⟨0, by decide⟩).2.Eval
        (Target.signalR sampleSignalR) diagContext
      = (SignalRScanner.GetRules.get ⟨0, by decide⟩).2.Eval
        (Target.signalR sampleSignalR) diagContextAlt :=
  claim_C8_rules_pure_readers _
    (List.mem_append_left _ (List.get_mem _ _ _))
    (Target.signalR sampleSignalR) diagContext diagContextAlt rfl

/-! ## The cosmos-002 / cosmos-003 relation (C10) -/

/-- Some location of the account is zone redundant. -/
def anyZone (locs : List CosmosLocation) : Bool :=
  locs.any (fun l => l.IsZoneRedundant == some true)

/-- Some location of the account is not zone redundant. -/
def anyNonZone (locs : List CosmosLocation) : Bool :=
  locs.any (fun l => l.IsZoneRedundant == some false)

/-- Joint characterisation of the two loops when every location carries a
non-nil `IsZoneRedundant`. -/
theorem cosmosLoops_spec (locs : List CosmosLocation)
    (h : ∀ l ∈ locs, (l.IsZoneRedundant).isSome) :
    ∀ (sla : String) (az nz : Bool) (n : Nat),
      cosmosZoneLoop locs az nz n
          = some (az || anyZone locs, nz || anyNonZone locs, n + locs.length) ∧
      cosmosSlaLoop locs sla az nz n
          = some ((if anyZone locs then "99.995%" else sla),
              az || anyZone locs, nz || anyNonZone locs, n + locs.length) := by
  induction locs with
  | nil => intro sla az nz n; simp [cosmosZoneLoop, cosmosSlaLoop, anyZone, anyNonZone]
  | cons l rest ih =>
    intro sla az nz n
    have hl := h l (by simp)
    have hrest : ∀ x ∈ rest, (x.IsZoneRedundant).isSome :=
      fun x hx => h x (by simp [hx])
    obtain ⟨z, hz⟩ := Option.isSome_iff_exists.mp hl
    have harith : n + 1 + rest.length = n + (rest.length + 1) := by omega
    cases z with
    | true =>
      have h1 := (ih hrest "99.995%" true nz (n + 1)).1
      have h2 := (ih hrest "99.995%" true nz (n + 1)).2
      constructor
      · simp [cosmosZoneLoop, hz, anyZone, anyNonZone, h1, harith]
      · simp [cosmosSlaLoop, hz, anyZone, anyNonZone, h2, harith]
    | false =>
      have h1 := (ih hrest sla az true (n + 1)).1
      have h2 := (ih hrest sla az true (n + 1)).2
      constructor
      · simp [cosmosZoneLoop, hz, anyZone, anyNonZone, h1, harith,
          Bool.or_comm, Bool.or_assoc, Bool.or_left_comm]
      · simp [cosmosSlaLoop, hz, anyZone, anyNonZone, h2, harith,
          Bool.or_comm, Bool.or_assoc, Bool.or_left_comm]

/-- Claim C10: on a correctly-typed account whose locations all carry a
non-nil `IsZoneRedundant`, cosmos-003 always returns `triggered = false`,
and its SLA detail is consistent with cosmos-002: "99.999%" exactly when
cosmos-002 is not triggered, "99.995%" when some location is zone
redundant but cosmos-002 is triggered, "99.99%" when no location is zone
redundant. -/
theorem claim_C10_sla_consistent_with_zones :
    ∀ (i : DatabaseAccountGetResults) (props : DatabaseAccountGetProperties)
      (ctx : ScanContext),
      i.Properties = some props →
      (∀ l ∈ props.Locations, (l.IsZoneRedundant).isSome) →
      ∃ sla t2,
        cosmos003Eval (Target.cosmos i) ctx = some (false, sla) ∧
        cosmos002Eval (Target.cosmos i) ctx = some (t2, "") ∧
        (sla = "99.999%" ↔ t2 = false) ∧
        (t2 = true → anyZone props.Locations = true → sla = "99.995%") ∧
        (anyZone props.Locations = false → sla = "99.99%") := by
  intro i props ctx hp h
  have h1 := (cosmosLoops_spec props.Locations h "99.99%" false false 0).1
  have h2 := (cosmosLoops_spec props.Locations h "99.99%" false false 0).2
  have e2 : cosmos002Eval (Target.cosmos i) ctx
      = some (!(anyZone props.Locations && decide (props.Locations.length ≥ 2)
          && !anyNonZone props.Locations), "") := by
    simp [cosmos002Eval, hp, h1]
  have e3 : cosmos003Eval (Target.cosmos i) ctx
      = some (false,
          if anyZone props.Locations && decide (props.Locations.length ≥ 2)
              && !anyNonZone props.Locations then "99.999%"
          else if anyZone props.Locations then "99.995%" else "99.99%") := by
    simp [cosmos003Eval, hp, h2]
  refine ⟨_, _, e3, e2, ?_, ?_, ?_⟩
  · cases haz : anyZone props.Locations <;>
      cases hnz : anyNonZone props.Locations <;>
      cases hd : decide (props.Locations.length ≥ 2) <;>
      simp [haz, hnz, hd]
  · cases haz : anyZone props.Locations <;>
      cases hnz : anyNonZone props.Locations <;>
      cases hd : decide (props.Locations.length ≥ 2) <;>
      simp [haz, hnz, hd]
  · cases haz : anyZone props.Locations <;>
      cases hnz : anyNonZone props.Locations <;>
      cases hd : decide (props.Locations.length ≥ 2) <;>
      simp [haz, hnz, hd]

/-- Witness for C10: an account with two zone-redundant locations gets SLA
"99.999%" and an untriggered cosmos-002. -/
theorem claim_C10_sla_consistent_with_zones_witness :
    ∃ sla t2,
      cosmos003Eval (Target.cosmos zrCosmos) emptyContext = some (false, sla) ∧
      cosmos002Eval (Target.cosmos zrCosmos) emptyContext = some (t2, "") ∧
      (sla = "99.999%" ↔ t2 = false) ∧
      (t2 = true → anyZone zrCosmosProps.Locations = true → sla = "99.995%") ∧
      (anyZone zrCosmosProps.Locations = false → sla = "99.99%") :=
  claim_C10_sla_consistent_with_zones zrCosmos zrCosmosProps emptyContext rfl
    (by decide)
